import Mathlib

/-
Verification of the branch-resolution core of the keboola-cli-mcp-server
repository, shallowly embedded in Lean.

Modelling conventions:
- Python/JSON values that can appear in the mapping file or the project
  manifest are embedded as the inductive type `Json` (JSON numbers are
  modelled as integers; no claim depends on float values).
- A JSON file on disk is embedded as `FileState`: the file may be absent,
  present but not syntactically valid JSON, or present with a parsed value
  (this mirrors exactly the three outcomes of `Path.exists` + `json.loads`).
- Python exceptions are embedded as the `PyExn` type; fallible code returns
  `Except PyExn _`.  The constructor `wrongShape` stands for the
  TypeError/AttributeError Python raises when a JSON file holds a non-object
  where a dict is expected (the exact Python class varies with the shape;
  no distinction among them is needed by any claim).
- External processes (git, the kbc binary, remote branch creation) are
  embedded as oracle fields of the `World` record: each field holds the
  outcome the external call would produce during the operation under study.
- Side-effect ordering (guard check, VCS query, mapping-file reads,
  subprocess spawn) is made explicit by an `Event` trace returned next to
  the result, so that ordering/gating claims are statable.
-/

namespace KbcMcp

/-- A JSON value (numbers restricted to integers; object fields kept in file
order, as `json.loads` preserves insertion order in Python). -/
inductive Json where
  | null : Json
  | bool : Bool → Json
  | num : Int → Json
  | str : String → Json
  | arr : List Json → Json
  | obj : List (String × Json) → Json

/-- Python `x == s` for a JSON value against a string: true only when `x` is
that string (Python equality across types is `False`, never an error). -/
def jsonEqStr (x : Json) (s : String) : Bool :=
  match x with
  | Json.str t => t == s
  | _ => false

/-- Python `x is None` for an embedded JSON value. -/
def Json.isNull : Json → Bool
  | Json.null => true
  | _ => false

/-- A well-typed branch mapping, as the Python type annotation
`dict[str, str | None]` describes it: branch name to workspace id or null. -/
abbrev Mapping := List (String × Option String)

/-- State of a JSON file on disk: absent, present but not valid JSON
(carrying the parse-error text), or present with parsed content `j`. -/
inductive FileState where
  | missing : FileState
  | notJson : String → FileState
  | jsonVal : Json → FileState

/-- `d.get(k, dflt)` on a Python dict embedded as an association list. -/
def objGetD : List (String × Json) → String → Json → Json
  | [], _, d => d
  | p :: rest, k, d => if p.1 == k then p.2 else objGetD rest k d

/-- `d[k] = v` on a Python dict: updating an existing key keeps its position,
a new key is appended at the end (Python dict insertion-order semantics). -/
def objSet (kvs : List (String × Json)) (k : String) (v : Json) :
    List (String × Json) :=
  if kvs.any (fun p => p.1 == k) then
    kvs.map (fun p => if p.1 == k then (k, v) else p)
  else
    kvs ++ [(k, v)]

/-- `d.pop(k, ...)`: the entries remaining after removing key `k`. -/
def objRemove (kvs : List (String × Json)) (k : String) :
    List (String × Json) :=
  kvs.filter (fun p => ¬ p.1 == k)

/-- The Python value `json.dumps`/`json.loads` round a well-typed mapping
through: a JSON object with null or string values. -/
def encodeMapping (m : Mapping) : Json :=
  Json.obj (m.map (fun p => (p.1, match p.2 with
    | some s => Json.str s
    | none => Json.null)))

/-- Decode the entries of a JSON object into a well-typed mapping; fails on
any value that is neither null nor a string. -/
def decodeEntries : List (String × Json) → Option Mapping
  | [] => some []
  | (k, Json.null) :: rest => (decodeEntries rest).map (fun m => (k, none) :: m)
  | (k, Json.str s) :: rest =>
      (decodeEntries rest).map (fun m => (k, some s) :: m)
  | _ :: _ => none

/-- View a JSON value as a well-typed mapping, if it has the expected
structure (an object whose values are all null or strings). -/
def asMapping : Json → Option Mapping
  | Json.obj kvs => decodeEntries kvs
  | _ => none

/-- `BranchMappingService.load_mappings`: returns `{}` when the file does not
exist, returns `{}` when `json.loads` raises `JSONDecodeError`, and otherwise
returns whatever value `json.loads` produced (only the syntactic parse error
is swallowed; no shape check is performed). -/
def load_mappings : FileState → Json
  | FileState.missing => Json.obj []
  | FileState.notJson _ => Json.obj []
  | FileState.jsonVal j => j

/-- `BranchMappingService.save_mappings`: writes `json.dumps(mappings)` to a
temp file and renames it over the destination; the resulting file state holds
exactly the serialized mapping. -/
def save_mappings (m : Mapping) : FileState :=
  FileState.jsonVal (encodeMapping m)

/-- Python exceptions relevant to the embedded code. `wrongShape` stands for
the TypeError/AttributeError raised on dict operations against a non-dict
JSON value (exact Python class varies with the shape). The
`BranchResolutionError` message embeds the branch name and the list of
currently mapped branches; they are carried here as structured fields. -/
inductive PyExn where
  | projectNotInitialized : String → PyExn
  | branchResolution : String → List String → PyExn
  | gitError : String → PyExn
  | wrongShape : PyExn
deriving DecidableEq

/-- The Python class name of an embedded exception. -/
def pyExnClass : PyExn → String
  | PyExn.projectNotInitialized _ => "ProjectNotInitializedError"
  | PyExn.branchResolution _ _ => "BranchResolutionError"
  | PyExn.gitError _ => "GitError"
  | PyExn.wrongShape => "TypeError"

/-- `sub in s` for Python strings (substring test). -/
def strContainsSub (s sub : String) : Bool :=
  sub == "" || (s.splitOn sub).length ≥ 2

/-- Python `b in j` for a string `b` against a JSON value: key membership on
dicts, element equality on lists, substring test on strings, TypeError on
null/bool/number. -/
def pyIn (b : String) : Json → Except PyExn Bool
  | Json.obj kvs => Except.ok (kvs.any (fun p => p.1 == b))
  | Json.arr xs => Except.ok (xs.any (fun x => jsonEqStr x b))
  | Json.str s => Except.ok (strContainsSub s b)
  | _ => Except.error PyExn.wrongShape

/-- `list(d.keys())`: raises on a non-dict value. -/
def jsonKeys : Json → Except PyExn (List String)
  | Json.obj kvs => Except.ok (kvs.map Prod.fst)
  | _ => Except.error PyExn.wrongShape

/-- `BranchMappingService.has_mapping`: `git_branch in self.load_mappings()`. -/
def has_mapping (fs : FileState) (b : String) : Except PyExn Bool :=
  pyIn b (load_mappings fs)

/-- `BranchMappingService.get_mapping`: `self.load_mappings().get(git_branch)`
(`.get` on a non-dict raises). -/
def get_mapping (fs : FileState) (b : String) : Except PyExn Json :=
  match load_mappings fs with
  | Json.obj kvs => Except.ok (objGetD kvs b Json.null)
  | _ => Except.error PyExn.wrongShape

/-- `BranchMappingService.add_mapping`: load, `mappings[b] = v`, save
(item assignment on a non-dict raises). -/
def add_mapping (fs : FileState) (b : String) (v : Option String) :
    Except PyExn FileState :=
  match load_mappings fs with
  | Json.obj kvs =>
      Except.ok (FileState.jsonVal (Json.obj (objSet kvs b
        (match v with | some s => Json.str s | none => Json.null))))
  | _ => Except.error PyExn.wrongShape

/-- `BranchMappingService.remove_mapping`: load,
`mappings.pop(git_branch, None)`, save; returns the popped value, with
Python `None` (here `Json.null`) as the default when the key is absent. -/
def remove_mapping (fs : FileState) (b : String) :
    Except PyExn (Json × FileState) :=
  match load_mappings fs with
  | Json.obj kvs =>
      Except.ok (objGetD kvs b Json.null,
        FileState.jsonVal (Json.obj (objRemove kvs b)))
  | _ => Except.error PyExn.wrongShape

/-- Python truthiness of a JSON value (`if not x`). -/
def truthy : Json → Bool
  | Json.null => false
  | Json.bool b => b
  | Json.num n => n != 0
  | Json.str s => s != ""
  | Json.arr xs => !xs.isEmpty
  | Json.obj kvs => !kvs.isEmpty

/-- Message raised when `.keboola/manifest.json` is absent. -/
def msgNotInitialized : String :=
  "PROJECT_NOT_INITIALIZED: Keboola project is not initialized. Run 'kbc sync init --allow-target-env' first."

/-- Message raised when the manifest parses but `allowTargetEnv` is falsy. -/
def msgMisconfigured : String :=
  "PROJECT_MISCONFIGURED: The project was not initialized with --allow-target-env flag. The KBC_BRANCH_ID environment variable override will NOT work. Re-initialize the project with: kbc sync init --allow-target-env"

/-- `BranchResolver.validate_project_initialization`, as a function of the
state of `.keboola/manifest.json`: raises `ProjectNotInitializedError` with a
"PROJECT_NOT_INITIALIZED" message when the file is absent, with a
"PROJECT_INVALID" message when `json.loads` fails, and with a
"PROJECT_MISCONFIGURED" message when `manifest.get("allowTargetEnv", False)`
is falsy.  (`.get` on a parsed non-dict manifest raises AttributeError,
which is not a `ProjectNotInitializedError`.) -/
def validate_project_initialization (manifest : FileState) :
    Except PyExn Unit :=
  match manifest with
  | FileState.missing =>
      Except.error (PyExn.projectNotInitialized msgNotInitialized)
  | FileState.notJson e =>
      Except.error (PyExn.projectNotInitialized
        ("PROJECT_INVALID: Failed to parse manifest.json: " ++ e))
  | FileState.jsonVal (Json.obj kvs) =>
      if truthy (objGetD kvs "allowTargetEnv" (Json.bool false)) then
        Except.ok ()
      else
        Except.error (PyExn.projectNotInitialized msgMisconfigured)
  | FileState.jsonVal _ => Except.error PyExn.wrongShape

/-- `BranchResolver.is_default_branch`: the branch equals the configured
default, or the literal "main", or the literal "master". -/
def is_default_branch (defaultBranch git_branch : String) : Bool :=
  git_branch == defaultBranch || git_branch == "main" || git_branch == "master"

/-- Observable side effects of one tool invocation, in order of occurrence:
a read of the project manifest (the Project Guard check), a VCS query for the
current branch, a read or write of the mapping file, a call into
`find_keboola_branch_by_name`, a remote branch creation, and the spawning of
the kbc subprocess. -/
inductive Event where
  | manifestRead : Event
  | gitQuery : Event
  | mappingRead : Event
  | mappingWrite : Event
  | remoteFind : Event
  | remoteCreate : Event
  | spawn : Event
deriving DecidableEq

/-- `BranchResolver.get_keboola_branch_id`, with its mapping-file reads made
explicit in an event trace.  A default branch returns `None` before any
mapping read; otherwise `has_mapping` (one read) decides between
`get_mapping` (a second read) and raising `BranchResolutionError` carrying
`list(load_mappings().keys())` (also a second read). -/
def get_keboola_branch_id_t (defaultBranch : String) (fs : FileState)
    (git_branch : String) : List Event × Except PyExn Json :=
  if is_default_branch defaultBranch git_branch then
    ([], Except.ok Json.null)
  else
    match has_mapping fs git_branch with
    | Except.error e => ([Event.mappingRead], Except.error e)
    | Except.ok true =>
        match get_mapping fs git_branch with
        | Except.error e =>
            ([Event.mappingRead, Event.mappingRead], Except.error e)
        | Except.ok v =>
            ([Event.mappingRead, Event.mappingRead], Except.ok v)
    | Except.ok false =>
        match jsonKeys (load_mappings fs) with
        | Except.error e =>
            ([Event.mappingRead, Event.mappingRead], Except.error e)
        | Except.ok keys =>
            ([Event.mappingRead, Event.mappingRead],
              Except.error (PyExn.branchResolution git_branch keys))

/-- `BranchResolver.get_keboola_branch_id`, result only. -/
def get_keboola_branch_id (defaultBranch : String) (fs : FileState)
    (git_branch : String) : Except PyExn Json :=
  (get_keboola_branch_id_t defaultBranch fs git_branch).2

/-- A process environment, as the Python dict `os.environ.copy()` produces
(values are strings in any reachable state; typed as JSON values so that the
assignment `env["KBC_BRANCH_ID"] = keboola_branch_id` is stated exactly). -/
abbrev EnvMap := List (String × Json)

/-- `env[k]` lookup (first matching key). -/
def envLookup : EnvMap → String → Option Json
  | [], _ => none
  | p :: rest, k => if p.1 == k then some p.2 else envLookup rest k

/-- `k in env`. -/
def envContains (env : EnvMap) (k : String) : Bool :=
  env.any (fun p => p.1 == k)

/-- `env[k] = v` with Python dict semantics. -/
def envSet (env : EnvMap) (k : String) (v : Json) : EnvMap :=
  if envContains env k then
    env.map (fun p => if p.1 == k then (k, v) else p)
  else
    env ++ [(k, v)]

/-- `del env[k]`. -/
def envDel : EnvMap → String → EnvMap
  | [], _ => []
  | p :: rest, k => if p.1 == k then envDel rest k else p :: envDel rest k

/-- The `branch_info` dict yielded by `branch_context`. -/
structure BranchInfo where
  git_branch : String
  keboola_branch_id : Json
  is_production : Bool

/-- Outcome of the kbc subprocess invocation, as an oracle: normal exit with
a return code and captured streams, `subprocess.TimeoutExpired`, or any other
raised invocation error. -/
inductive SpawnOutcome where
  | exited : Int → String → String → SpawnOutcome
  | timedOut : SpawnOutcome
  | raised : String → SpawnOutcome

/-- The state of the world one tool invocation runs against: the configured
default branch, the state of `.keboola/manifest.json`, the outcome the VCS
query would report (branch name, or the `GitError` message), the state of the
mapping file, the ambient process environment, and oracles for the outcomes
of the kbc subprocess and of `create_keboola_branch` (ok branch id, or the
`BranchCreationError` message). -/
structure World where
  defaultBranch : String
  manifest : FileState
  gitBranch : Except String String
  mappingFile : FileState
  ambientEnv : EnvMap
  subprocess : SpawnOutcome
  remoteCreate : Except String String

/-- `BranchResolver.branch_context`, with its side effects traced: validate
the project first, then query the current git branch (a raised `GitError`
propagates), then resolve the workspace id; on success copy the ambient
environment and set `KBC_BRANCH_ID` to the resolved id when it is not None,
else delete it when inherited from the ambient environment. -/
def branch_context_t (W : World) :
    List Event × Except PyExn (EnvMap × BranchInfo) :=
  match validate_project_initialization W.manifest with
  | Except.error e => ([Event.manifestRead], Except.error e)
  | Except.ok _ =>
    match W.gitBranch with
    | Except.error m =>
        ([Event.manifestRead, Event.gitQuery],
          Except.error (PyExn.gitError m))
    | Except.ok git_branch =>
      match get_keboola_branch_id_t W.defaultBranch W.mappingFile git_branch
        with
      | (evs, Except.error e) =>
          (Event.manifestRead :: Event.gitQuery :: evs, Except.error e)
      | (evs, Except.ok kid) =>
          let env0 := W.ambientEnv
          let env :=
            if ¬ kid.isNull then envSet env0 "KBC_BRANCH_ID" kid
            else if envContains env0 "KBC_BRANCH_ID" then
              envDel env0 "KBC_BRANCH_ID"
            else env0
          (Event.manifestRead :: Event.gitQuery :: evs,
            Except.ok (env, ⟨git_branch, kid, kid.isNull⟩))

/-- `BranchResolver.branch_context`, result only. -/
def branch_context (W : World) : Except PyExn (EnvMap × BranchInfo) :=
  (branch_context_t W).2

/-- The whitelist of allowed CLI commands (`ALLOWED_COMMANDS`). -/
def ALLOWED_COMMANDS : List String :=
  ["sync push", "sync pull", "sync diff", "sync init",
   "remote job run", "remote table preview", "remote table download",
   "remote table upload", "remote create bucket", "remote create branch",
   "remote list branches", "local validate", "local create config",
   "local encrypt", "status"]

/-- Python `str.lower()` (ASCII case mapping; every allow-listed command is
ASCII). -/
def pyLower (s : String) : String :=
  String.mk (s.data.map Char.toLower)

/-- Python `str.strip()`: drop leading and trailing whitespace. -/
def pyStrip (s : String) : String :=
  String.mk
    (((s.data.dropWhile Char.isWhitespace).reverse.dropWhile
      Char.isWhitespace).reverse)

/-- One character list is a prefix of another. -/
def isPrefixList : List Char → List Char → Bool
  | [], _ => true
  | _ :: _, [] => false
  | p :: ps, c :: cs => p == c && isPrefixList ps cs

/-- Python `s.startswith(pre)`. -/
def pyStartsWith (s pre : String) : Bool :=
  isPrefixList pre.data s.data

/-- `_validate_command`: normalize with `.strip().lower()`, then accept when
the result equals an allow-listed entry or starts with an entry plus a
space. -/
def _validate_command (command : String) : Bool :=
  let c := pyLower (pyStrip command)
  ALLOWED_COMMANDS.any (fun allowed =>
    c == allowed || pyStartsWith c (allowed ++ " "))

/-- Python `s.replace(old, new)` for single-character patterns (the only
form the source uses: "_" to "-" and "/" to "-"). -/
def pyReplaceChar (old new : Char) (s : String) : String :=
  String.mk (s.data.map (fun c => if c == old then new else c))

/-- A scalar Python value inside the `args` dict of the `kbc` tool. -/
inductive ArgScalar where
  | bool : Bool → ArgScalar
  | str : String → ArgScalar
  | num : Int → ArgScalar

/-- Python `str()` of a scalar argument value. -/
def pyStrScalar : ArgScalar → String
  | ArgScalar.bool true => "True"
  | ArgScalar.bool false => "False"
  | ArgScalar.str s => s
  | ArgScalar.num n => toString n

/-- A Python value passed in the `args` dict of the `kbc` tool: a scalar or
a list of scalars (JSON permits deeper nesting, which Python would render
through `str()`; no claim depends on nested lists, so they are not
modelled). -/
inductive ArgVal where
  | scalar : ArgScalar → ArgVal
  | list : List ArgScalar → ArgVal

/-- `_convert_args_to_cli_flags`: snake_case keys become kebab-case flags;
a true boolean emits a bare flag, a false boolean emits nothing, a list
emits one `--flag value` pair per element in order, and any other value
emits a single `--flag value` pair.  An empty dict (or `None`) yields no
flags. -/
def _convert_args_to_cli_flags (args : List (String × ArgVal)) : List String :=
  (args.map (fun kv =>
    let flagName := pyReplaceChar '_' '-' kv.1
    match kv.2 with
    | ArgVal.scalar (ArgScalar.bool true) => ["--" ++ flagName]
    | ArgVal.scalar (ArgScalar.bool false) => []
    | ArgVal.list xs =>
        (xs.map (fun item => ["--" ++ flagName, pyStrScalar item])).flatten
    | ArgVal.scalar v => ["--" ++ flagName, pyStrScalar v])).flatten

/-- Accumulating loop of Python `command.split()`. -/
def splitWsAux : List Char → List Char → List String
  | [], acc => if acc.isEmpty then [] else [String.mk acc.reverse]
  | c :: cs, acc =>
      if c.isWhitespace then
        if acc.isEmpty then splitWsAux cs []
        else String.mk acc.reverse :: splitWsAux cs []
      else splitWsAux cs (c :: acc)

/-- Python `command.split()`: split on whitespace runs, dropping empties. -/
def pySplitWhitespace (s : String) : List String :=
  splitWsAux s.data []

/-- The hard-coded path to the kbc binary in `cli_proxy.py`. -/
def KBC_CLI_PATH : String :=
  "/Users/esner/Documents/Prace/KBC/AI-TESTING/keboola-as-code/target/keboola-cli_darwin_arm64_v8.0/kbc"

/-- Python `repr` of a list of strings, as interpolated into the
`NO_MAPPING` message (`f"... Available mappings: \x7bavailable\x7d"`). -/
def pyReprStrList (xs : List String) : String :=
  "[" ++ String.intercalate ", " (xs.map (fun s => "'" ++ s ++ "'")) ++ "]"

/-- The message carried by `BranchResolutionError` in
`get_keboola_branch_id`. -/
def noMappingMessage (git_branch : String) (available : List String) :
    String :=
  "NO_MAPPING: Git branch \"" ++ git_branch ++
    "\" is not linked to any Keboola branch. Use the \"link_branch\" tool first. Available mappings: "
    ++ pyReprStrList available

/-- `str(e)` of an embedded exception. -/
def pyExnMessage : PyExn → String
  | PyExn.projectNotInitialized m => m
  | PyExn.branchResolution b available => noMappingMessage b available
  | PyExn.gitError m => m
  | PyExn.wrongShape => ""

/-- The message of the `INVALID_COMMAND` result of the `kbc` tool. -/
def invalidCommandMessage (command : String) : String :=
  "Command '" ++ command ++ "' is not allowed. Available commands: " ++
    String.intercalate ", " ALLOWED_COMMANDS

/-- The structured result dict returned by the `kbc` tool, one constructor
per shape of dict the source returns, carrying the fields claims inspect
(the `error` code, messages, branch info, subprocess outcome).
`unhandledRaise` marks an exception escaping the tool body (raised inside an
`except` handler), which no `except` clause of `kbc` catches. -/
inductive KbcResult where
  | invalidCommand : String → KbcResult
  | success : String → String → Json → String → Int → KbcResult
  | cliError : String → Int → String → String → String → Json → KbcResult
  | projectNotInitializedRes : String → KbcResult
  | noMapping : String → String → List String → KbcResult
  | timeoutRes : String → KbcResult
  | executionError : String → KbcResult
  | unhandledRaise : PyExn → KbcResult

/-- The `error` field of a `kbc` result dict (`none` for a success dict). -/
def resultCode : KbcResult → Option String
  | KbcResult.invalidCommand _ => some "INVALID_COMMAND"
  | KbcResult.success _ _ _ _ _ => none
  | KbcResult.cliError _ _ _ _ _ _ => some "CLI_ERROR"
  | KbcResult.projectNotInitializedRes _ => some "PROJECT_NOT_INITIALIZED"
  | KbcResult.noMapping _ _ _ => some "NO_MAPPING"
  | KbcResult.timeoutRes _ => some "TIMEOUT"
  | KbcResult.executionError _ => some "EXECUTION_ERROR"
  | KbcResult.unhandledRaise _ => none

/-- The `kbc` tool of `cli_proxy.py`, with its side effects traced.
Order of operations, exactly as in the source: the allow-list check runs
first and returns `INVALID_COMMAND` with no side effect at all on failure;
then `branch_context()` is entered; on its success the full command line is
built and the subprocess is spawned (the `spawn` event), and the outcome is
mapped to a success / `CLI_ERROR` / `TIMEOUT` / `EXECUTION_ERROR` result;
a `ProjectNotInitializedError` maps to a `PROJECT_NOT_INITIALIZED` result,
a `BranchResolutionError` maps to a `NO_MAPPING` result whose handler
re-reads the mapping file and re-queries git (coercing a git failure to
"unknown"), and any other exception maps to `EXECUTION_ERROR`. -/
def kbcRun (W : World) (command : String) (args : List (String × ArgVal)) :
    List Event × KbcResult :=
  if _validate_command command = false then
    ([], KbcResult.invalidCommand (invalidCommandMessage command))
  else
    match branch_context_t W with
    | (tr, Except.error (PyExn.projectNotInitialized m)) =>
        (tr, KbcResult.projectNotInitializedRes m)
    | (tr, Except.error (PyExn.branchResolution b available)) =>
        (match jsonKeys (load_mappings W.mappingFile) with
        | Except.error e =>
            (tr ++ [Event.mappingRead], KbcResult.unhandledRaise e)
        | Except.ok available2 =>
            let gb := match W.gitBranch with
              | Except.ok s => s
              | Except.error _ => "unknown"
            (tr ++ [Event.mappingRead, Event.gitQuery],
              KbcResult.noMapping (noMappingMessage b available) gb
                available2))
    | (tr, Except.error e) =>
        (tr, KbcResult.executionError (pyExnMessage e))
    | (tr, Except.ok (_env, info)) =>
        let cmdParts := KBC_CLI_PATH :: pySplitWhitespace command
          ++ _convert_args_to_cli_flags args
        let fullCommand := String.intercalate " " cmdParts
        match W.subprocess with
        | SpawnOutcome.exited code out err =>
            if code == 0 then
              (tr ++ [Event.spawn],
                KbcResult.success fullCommand info.git_branch
                  info.keboola_branch_id out code)
            else
              (tr ++ [Event.spawn],
                KbcResult.cliError fullCommand code out err info.git_branch
                  info.keboola_branch_id)
        | SpawnOutcome.timedOut =>
            (tr ++ [Event.spawn], KbcResult.timeoutRes
              ("Command '" ++ command ++ "' timed out after 300 seconds"))
        | SpawnOutcome.raised m =>
            (tr ++ [Event.spawn], KbcResult.executionError m)

/-- Python `str()` of a JSON value, as used for `str(branch.get("id"))` and
for interpolating a possibly-null id into a message (`str(None)` is
"None"; container reprs are approximated, no claim depends on them). -/
def pyStrJson : Json → String
  | Json.null => "None"
  | Json.bool true => "True"
  | Json.bool false => "False"
  | Json.num n => toString n
  | Json.str s => s
  | Json.arr _ => "[...]"
  | Json.obj _ => "\x7b...\x7d"

/-- The loop of `find_keboola_branch_by_name` over `manifest["branches"]`:
return the first entry whose `path` equals the searched name or the name
with "/" rewritten to "-"; a non-dict entry raises (AttributeError, not
caught by the surrounding `except (JSONDecodeError, FileNotFoundError)`). -/
def findBranchLoop (sought transformed : String) :
    List Json → Except PyExn (Option String)
  | [] => Except.ok none
  | Json.obj bkvs :: rest =>
      if jsonEqStr (objGetD bkvs "path" Json.null) sought
          || jsonEqStr (objGetD bkvs "path" Json.null) transformed then
        Except.ok (some (pyStrJson (objGetD bkvs "id" Json.null)))
      else
        findBranchLoop sought transformed rest
  | _ :: _ => Except.error PyExn.wrongShape

/-- `find_keboola_branch_by_name` as a function of the manifest file state:
`None` when the manifest is absent or fails to parse (both exception types
are caught), otherwise a scan of `manifest.get("branches", [])` probing the
exact name and the "/"-to-"-" transformed name; the found branch id is
returned as `str(branch.get("id"))`.  A parsed manifest that is not a dict,
or a non-list `branches` value, raises. -/
def find_keboola_branch_by_name (manifest : FileState) (branch_name : String) :
    Except PyExn (Option String) :=
  match manifest with
  | FileState.missing => Except.ok none
  | FileState.notJson _ => Except.ok none
  | FileState.jsonVal (Json.obj kvs) =>
      match objGetD kvs "branches" (Json.arr []) with
      | Json.arr xs =>
          findBranchLoop branch_name (pyReplaceChar '/' '-' branch_name) xs
      | _ => Except.error PyExn.wrongShape
  | FileState.jsonVal _ => Except.error PyExn.wrongShape

/-- The result dict of the `link_branch` tool, one constructor per dict
shape the source returns; `linkedRes` carries git_branch, keboola_branch_id,
keboola_branch_name, created, and message.  `unhandledLink` marks an
exception no handler in the tool catches. -/
inductive LinkRes where
  | gitErrorRes : String → LinkRes
  | projectNotInitializedRes : String → LinkRes
  | linkedRes : String → Json → String → Bool → String → LinkRes
  | branchCreationErrorRes : String → LinkRes
  | unhandledLink : PyExn → LinkRes

/-- The `link_branch` tool of `branch.py`, with side effects traced and the
(possibly updated) mapping-file state returned.  Order, exactly as in the
source: query git; validate the project; if the current branch is a default
branch, write a null mapping for it and report production linkage; otherwise
report an existing mapping unchanged; otherwise look up an existing remote
branch by name in the manifest and link it; otherwise create a remote branch
and link the id it reports. -/
def link_branch (W : World) (branch_name : Option String) :
    List Event × FileState × LinkRes :=
  match W.gitBranch with
  | Except.error m =>
      ([Event.gitQuery], W.mappingFile, LinkRes.gitErrorRes m)
  | Except.ok git_branch =>
    match validate_project_initialization W.manifest with
    | Except.error (PyExn.projectNotInitialized m) =>
        ([Event.gitQuery, Event.manifestRead], W.mappingFile,
          LinkRes.projectNotInitializedRes m)
    | Except.error e =>
        ([Event.gitQuery, Event.manifestRead], W.mappingFile,
          LinkRes.unhandledLink e)
    | Except.ok _ =>
      if is_default_branch W.defaultBranch git_branch then
        match add_mapping W.mappingFile git_branch none with
        | Except.error e =>
            ([Event.gitQuery, Event.manifestRead, Event.mappingRead],
              W.mappingFile, LinkRes.unhandledLink e)
        | Except.ok fs' =>
            ([Event.gitQuery, Event.manifestRead, Event.mappingRead,
                Event.mappingWrite],
              fs',
              LinkRes.linkedRes git_branch Json.null "production" false
                ("Default branch '" ++ git_branch ++
                  "' mapped to production (no KBC_BRANCH_ID override)"))
      else
        let keboola_branch_name := branch_name.getD git_branch
        match has_mapping W.mappingFile git_branch with
        | Except.error e =>
            ([Event.gitQuery, Event.manifestRead, Event.mappingRead],
              W.mappingFile, LinkRes.unhandledLink e)
        | Except.ok true =>
            match get_mapping W.mappingFile git_branch with
            | Except.error e =>
                ([Event.gitQuery, Event.manifestRead, Event.mappingRead,
                    Event.mappingRead],
                  W.mappingFile, LinkRes.unhandledLink e)
            | Except.ok existing_id =>
                ([Event.gitQuery, Event.manifestRead, Event.mappingRead,
                    Event.mappingRead],
                  W.mappingFile,
                  LinkRes.linkedRes git_branch existing_id
                    keboola_branch_name false
                    ("Branch already linked to Keboola branch " ++
                      pyStrJson existing_id))
        | Except.ok false =>
            match find_keboola_branch_by_name W.manifest keboola_branch_name
              with
            | Except.error e =>
                ([Event.gitQuery, Event.manifestRead, Event.mappingRead,
                    Event.remoteFind],
                  W.mappingFile, LinkRes.unhandledLink e)
            | Except.ok (some branch_id) =>
                (match add_mapping W.mappingFile git_branch (some branch_id)
                  with
                | Except.error e =>
                    ([Event.gitQuery, Event.manifestRead, Event.mappingRead,
                        Event.remoteFind, Event.mappingRead],
                      W.mappingFile, LinkRes.unhandledLink e)
                | Except.ok fs' =>
                    ([Event.gitQuery, Event.manifestRead, Event.mappingRead,
                        Event.remoteFind, Event.mappingRead,
                        Event.mappingWrite],
                      fs',
                      LinkRes.linkedRes git_branch (Json.str branch_id)
                        keboola_branch_name false
                        ("Linked to existing Keboola branch '" ++
                          keboola_branch_name ++ "' (ID: " ++ branch_id ++
                          ")")))
            | Except.ok none =>
                match W.remoteCreate with
                | Except.error m =>
                    ([Event.gitQuery, Event.manifestRead, Event.mappingRead,
                        Event.remoteFind, Event.remoteCreate],
                      W.mappingFile, LinkRes.branchCreationErrorRes m)
                | Except.ok branch_id =>
                    match add_mapping W.mappingFile git_branch
                      (some branch_id) with
                    | Except.error e =>
                        ([Event.gitQuery, Event.manifestRead,
                            Event.mappingRead, Event.remoteFind,
                            Event.remoteCreate, Event.mappingRead],
                          W.mappingFile, LinkRes.unhandledLink e)
                    | Except.ok fs' =>
                        ([Event.gitQuery, Event.manifestRead,
                            Event.mappingRead, Event.remoteFind,
                            Event.remoteCreate, Event.mappingRead,
                            Event.mappingWrite],
                          fs',
                          LinkRes.linkedRes git_branch (Json.str branch_id)
                            keboola_branch_name true
                            ("Successfully created and linked Keboola branch '"
                              ++ keboola_branch_name ++ "' (ID: " ++
                              branch_id ++ ")"))

/-- The result dict of the `unlink_branch` tool: a git failure, the
distinct "no mapping exists" outcome (with a null
`unlinked_keboola_branch_id`), or the removed outcome carrying the id that
was removed.  `unhandledUnlink` marks an uncaught exception. -/
inductive UnlinkRes where
  | gitErrorRes : String → UnlinkRes
  | noMappingRes : String → String → UnlinkRes
  | removedRes : String → Json → String → UnlinkRes
  | unhandledUnlink : PyExn → UnlinkRes

/-- The `unlink_branch` tool of `branch.py`: query git; if no mapping exists
for the current branch, return the "No mapping exists" dict without touching
the file; otherwise remove the mapping and report the removed id. -/
def unlink_branch (W : World) : FileState × UnlinkRes :=
  match W.gitBranch with
  | Except.error m => (W.mappingFile, UnlinkRes.gitErrorRes m)
  | Except.ok git_branch =>
    match has_mapping W.mappingFile git_branch with
    | Except.error e => (W.mappingFile, UnlinkRes.unhandledUnlink e)
    | Except.ok false =>
        (W.mappingFile,
          UnlinkRes.noMappingRes git_branch
            ("No mapping exists for git branch '" ++ git_branch ++ "'"))
    | Except.ok true =>
        match remove_mapping W.mappingFile git_branch with
        | Except.error e => (W.mappingFile, UnlinkRes.unhandledUnlink e)
        | Except.ok (kid, fs') =>
            (fs',
              UnlinkRes.removedRes git_branch kid
                ("Mapping removed. Keboola branch " ++
                  (if truthy kid then pyStrJson kid else "production") ++
                  " still exists."))

/-! ### Helper lemmas about the Python-dict association-list operations -/

theorem Json.isNull_iff (j : Json) : j.isNull = true ↔ j = Json.null := by
  cases j <;> simp [Json.isNull]

theorem envLookup_map_set_self (env : EnvMap) (k : String) (v : Json)
    (h : envContains env k = true) :
    envLookup (env.map (fun p => if p.1 == k then (k, v) else p)) k
      = some v := by
  induction env with
  | nil => simp [envContains] at h
  | cons p rest ih =>
      by_cases hp : p.1 == k
      · simp [envLookup, hp]
      · simp only [envContains, List.any_cons, hp, Bool.false_or] at h
        simp only [List.map_cons, hp, if_false, envLookup]
        rw [if_neg (by simpa using hp)]
        exact ih h

theorem envLookup_append_single_self (env : EnvMap) (k : String) (v : Json)
    (h : envContains env k = false) :
    envLookup (env ++ [(k, v)]) k = some v := by
  induction env with
  | nil => simp [envLookup]
  | cons p rest ih =>
      simp only [envContains, List.any_cons, Bool.or_eq_false_iff] at h
      simp only [List.cons_append, envLookup]
      rw [if_neg (by simpa using h.1)]
      exact ih h.2

theorem envLookup_envSet_self (env : EnvMap) (k : String) (v : Json) :
    envLookup (envSet env k v) k = some v := by
  unfold envSet
  by_cases h : envContains env k
  · rw [if_pos h]
    exact envLookup_map_set_self env k v h
  · rw [if_neg h]
    exact envLookup_append_single_self env k v (by simpa using h)

theorem envLookup_map_set_other (env : EnvMap) (k k' : String) (v : Json)
    (hne : k' ≠ k) :
    envLookup (env.map (fun p => if p.1 == k then (k, v) else p)) k'
      = envLookup env k' := by
  induction env with
  | nil => rfl
  | cons p rest ih =>
      simp only [List.map_cons]
      by_cases hp : p.1 == k
      · rw [if_pos hp]
        have hpk : p.1 = k := by simpa using hp
        have h1 : ¬ ((k, v).1 == k') := by
          simpa using fun hh => hne hh.symm
        have h2 : ¬ (p.1 == k') := by
          simpa [hpk] using fun hh => hne hh.symm
        simp only [envLookup]
        rw [if_neg h1, if_neg h2]
        exact ih
      · rw [if_neg hp]
        simp only [envLookup]
        by_cases hp' : p.1 == k'
        · rw [if_pos hp', if_pos hp']
        · rw [if_neg hp', if_neg hp']
          exact ih

theorem envLookup_append_single_other (env : EnvMap) (k k' : String)
    (v : Json) (hne : k' ≠ k) :
    envLookup (env ++ [(k, v)]) k' = envLookup env k' := by
  induction env with
  | nil =>
      simp only [List.nil_append, envLookup]
      rw [if_neg (by simpa using fun hh => hne hh.symm)]
  | cons p rest ih =>
      simp only [List.cons_append, envLookup]
      by_cases hp' : p.1 == k'
      · rw [if_pos hp', if_pos hp']
      · rw [if_neg hp', if_neg hp']
        exact ih

theorem envLookup_envSet_other (env : EnvMap) (k k' : String) (v : Json)
    (hne : k' ≠ k) :
    envLookup (envSet env k v) k' = envLookup env k' := by
  unfold envSet
  by_cases h : envContains env k
  · rw [if_pos h]
    exact envLookup_map_set_other env k k' v hne
  · rw [if_neg h]
    exact envLookup_append_single_other env k k' v hne

theorem envLookup_envDel_self (env : EnvMap) (k : String) :
    envLookup (envDel env k) k = none := by
  induction env with
  | nil => rfl
  | cons p rest ih =>
      simp only [envDel]
      by_cases hp : p.1 == k
      · rw [if_pos hp]
        exact ih
      · rw [if_neg hp]
        simp only [envLookup]
        rw [if_neg hp]
        exact ih

theorem envLookup_envDel_other (env : EnvMap) (k k' : String)
    (hne : k' ≠ k) :
    envLookup (envDel env k) k' = envLookup env k' := by
  induction env with
  | nil => rfl
  | cons p rest ih =>
      simp only [envDel]
      by_cases hp : p.1 == k
      · rw [if_pos hp, ih]
        have hpk : p.1 = k := by simpa using hp
        have hp' : ¬ (p.1 == k') := by
          simpa [hpk] using fun hh => hne hh.symm
        have hc : envLookup (p :: rest) k'
            = if p.1 == k' then some p.2 else envLookup rest k' := rfl
        rw [hc, if_neg hp']
      · rw [if_neg hp]
        simp only [envLookup]
        by_cases hp' : p.1 == k'
        · rw [if_pos hp', if_pos hp']
        · rw [if_neg hp', if_neg hp']
          exact ih

theorem envLookup_none_of_not_contains (env : EnvMap) (k : String)
    (h : envContains env k = false) : envLookup env k = none := by
  induction env with
  | nil => rfl
  | cons p rest ih =>
      simp only [envContains, List.any_cons, Bool.or_eq_false_iff] at h
      simp only [envLookup]
      rw [if_neg (by simpa using h.1)]
      exact ih h.2

/-! ### C1: the environment overlay produced by branch_context -/

/-- Claim C1: whenever `branch_context` succeeds, the produced environment
overlay agrees with the ambient process environment on every variable other
than KBC_BRANCH_ID; KBC_BRANCH_ID is set to the resolved workspace id when
that id is not None, and is absent (even if the ambient environment carried
it) when the resolved id is None. -/
theorem branch_context_overlay (W : World) (env : EnvMap) (info : BranchInfo)
    (h : branch_context W = Except.ok (env, info)) :
    (∀ k, k ≠ "KBC_BRANCH_ID" →
      envLookup env k = envLookup W.ambientEnv k) ∧
    (info.keboola_branch_id ≠ Json.null →
      envLookup env "KBC_BRANCH_ID" = some info.keboola_branch_id) ∧
    (info.keboola_branch_id = Json.null →
      envLookup env "KBC_BRANCH_ID" = none) := by
  unfold branch_context branch_context_t at h
  cases hv : validate_project_initialization W.manifest with
  | error e => simp [hv] at h
  | ok u =>
    cases hg : W.gitBranch with
    | error m => simp [hv, hg] at h
    | ok gb =>
      rcases hr : get_keboola_branch_id_t W.defaultBranch W.mappingFile gb
        with ⟨evs, res⟩
      cases res with
      | error e => simp [hv, hg, hr] at h
      | ok kid =>
        simp only [hv, hg, hr, Except.ok.injEq, Prod.mk.injEq] at h
        obtain ⟨henv, hinfo⟩ := h
        subst henv
        subst hinfo
        by_cases hn : kid.isNull
        · have hknull : kid = Json.null := (Json.isNull_iff kid).mp hn
          simp only [hn, Bool.not_true, if_false]
          by_cases hc : envContains W.ambientEnv "KBC_BRANCH_ID"
          · simp only [hc, if_true]
            refine ⟨?_, ?_, ?_⟩
            · intro k hk
              exact envLookup_envDel_other W.ambientEnv "KBC_BRANCH_ID" k hk
            · intro hne
              exact absurd hknull hne
            · intro _
              exact envLookup_envDel_self W.ambientEnv "KBC_BRANCH_ID"
          · simp only [hc, if_false]
            refine ⟨fun k _ => rfl, ?_, ?_⟩
            · intro hne
              exact absurd hknull hne
            · intro _
              exact envLookup_none_of_not_contains W.ambientEnv
                "KBC_BRANCH_ID" (by simpa using hc)
        · simp only [hn, Bool.not_false, if_true]
          refine ⟨?_, ?_, ?_⟩
          · intro k hk
            exact envLookup_envSet_other W.ambientEnv "KBC_BRANCH_ID" k kid hk
          · intro _
            exact envLookup_envSet_self W.ambientEnv "KBC_BRANCH_ID" kid
          · intro hknull
            exact absurd ((Json.isNull_iff kid).mpr hknull) hn

/-- The end-to-end scenario of the spec, on branch "feature/x": mapping file
maps "main" to null and "feature/x" to "123", the manifest allows the
override, and the ambient environment carries a stale KBC_BRANCH_ID=999. -/
def exWorldFeature : World :=
  { defaultBranch := "main"
    manifest := FileState.jsonVal
      (Json.obj [("allowTargetEnv", Json.bool true)])
    gitBranch := Except.ok "feature/x"
    mappingFile := FileState.jsonVal
      (Json.obj [("main", Json.null), ("feature/x", Json.str "123")])
    ambientEnv := [("KBC_BRANCH_ID", Json.str "999"),
      ("PATH", Json.str "/usr/bin")]
    subprocess := SpawnOutcome.exited 0 "" ""
    remoteCreate := Except.ok "1" }

/-- The same scenario after switching to branch "main". -/
def exWorldMain : World :=
  { exWorldFeature with gitBranch := Except.ok "main" }

/-- The overlay produced in `exWorldFeature`. -/
def exEnvFeature : EnvMap :=
  [("KBC_BRANCH_ID", Json.str "123"), ("PATH", Json.str "/usr/bin")]

/-- The overlay produced in `exWorldMain`. -/
def exEnvMain : EnvMap := [("PATH", Json.str "/usr/bin")]

/-- Witness for C1: on "feature/x" the overlay carries KBC_BRANCH_ID=123 and
leaves PATH alone; on "main" the overlay has no KBC_BRANCH_ID at all, even
though the ambient environment set it. -/
theorem branch_context_overlay_witness :
    branch_context exWorldFeature
      = Except.ok (exEnvFeature, ⟨"feature/x", Json.str "123", false⟩) ∧
    envLookup exEnvFeature "KBC_BRANCH_ID" = some (Json.str "123") ∧
    envLookup exEnvFeature "PATH"
      = envLookup exWorldFeature.ambientEnv "PATH" ∧
    branch_context exWorldMain
      = Except.ok (exEnvMain, ⟨"main", Json.null, true⟩) ∧
    envLookup exEnvMain "KBC_BRANCH_ID" = none := by
  refine ⟨rfl, ?_, ?_, rfl, ?_⟩
  · exact (branch_context_overlay exWorldFeature exEnvFeature
      ⟨"feature/x", Json.str "123", false⟩ rfl).2.1 (by simp)
  · exact (branch_context_overlay exWorldFeature exEnvFeature
      ⟨"feature/x", Json.str "123", false⟩ rfl).1 "PATH" (by simp)
  · exact (branch_context_overlay exWorldMain exEnvMain
      ⟨"main", Json.null, true⟩ rfl).2.2 rfl

/-! ### C2: default branches resolve to null without consulting the mapping -/

/-- Claim C2: for every branch name that is a default branch (the configured
default, or the literal "main", or the literal "master"),
`get_keboola_branch_id` returns `None` regardless of the mapping file's
contents, and performs no mapping-file read at all. -/
theorem resolve_default_is_null (defaultBranch : String) (fs : FileState)
    (b : String) (h : is_default_branch defaultBranch b = true) :
    get_keboola_branch_id defaultBranch fs b = Except.ok Json.null ∧
    (get_keboola_branch_id_t defaultBranch fs b).1 = [] := by
  unfold get_keboola_branch_id get_keboola_branch_id_t
  rw [if_pos h]
  exact ⟨rfl, rfl⟩

/-- Witness for C2: the configured default is "develop", the mapping file
maps "main" to the non-null id "999", yet resolving "main" (a literal
default) yields `None` and reads nothing. -/
theorem resolve_default_is_null_witness :
    is_default_branch "develop" "main" = true ∧
    get_keboola_branch_id "develop"
      (FileState.jsonVal (Json.obj [("main", Json.str "999")])) "main"
      = Except.ok Json.null :=
  ⟨by decide,
    (resolve_default_is_null "develop"
      (FileState.jsonVal (Json.obj [("main", Json.str "999")])) "main"
      (by decide)).1⟩

/-! ### C3: unmapped non-default branches fail with the mapping key list -/

/-- Claim C3: for every non-default branch with no entry in the mapping
store, `get_keboola_branch_id` raises `BranchResolutionError` carrying
exactly the list of keys of the current mapping store contents. -/
theorem resolve_unmapped_branch_error (defaultBranch : String)
    (fs : FileState) (b : String) (kvs : List (String × Json))
    (hdef : is_default_branch defaultBranch b = false)
    (hload : load_mappings fs = Json.obj kvs)
    (hmem : kvs.any (fun p => p.1 == b) = false) :
    get_keboola_branch_id defaultBranch fs b =
      Except.error (PyExn.branchResolution b (kvs.map Prod.fst)) := by
  unfold get_keboola_branch_id get_keboola_branch_id_t has_mapping
  rw [hload]
  simp [hdef, pyIn, jsonKeys, hmem]

/-- Witness for C3: the store maps only "feature/x"; resolving the
non-default "feature/y" fails with the key list ["feature/x"]. -/
theorem resolve_unmapped_branch_error_witness :
    get_keboola_branch_id "main"
      (save_mappings [("feature/x", some "123")]) "feature/y"
      = Except.error (PyExn.branchResolution "feature/y" ["feature/x"]) :=
  resolve_unmapped_branch_error "main"
    (save_mappings [("feature/x", some "123")]) "feature/y"
    [("feature/x", Json.str "123")] (by decide) rfl (by decide)

/-! ### C6: the read-side fail-open policy of the mapping store -/

/-- Counterexample to claim C6 as stated: a backing file whose content is
the valid JSON array `[1]` fails to parse as the expected structure (a
string-to-string-or-null object), yet `load_mappings` does not return the
empty mapping — it returns the array unchanged, which is not a mapping at
all. -/
theorem load_mappings_wrong_shape_counterexample :
    asMapping (Json.arr [Json.num 1]) = none ∧
    load_mappings (FileState.jsonVal (Json.arr [Json.num 1]))
      = Json.arr [Json.num 1] ∧
    load_mappings (FileState.jsonVal (Json.arr [Json.num 1]))
      ≠ Json.obj [] ∧
    asMapping (load_mappings (FileState.jsonVal (Json.arr [Json.num 1])))
      = none := by
  refine ⟨rfl, rfl, ?_, rfl⟩
  simp [load_mappings]

/-- Claim C6 as amended: `load_mappings` is total (never raises) and returns
the empty mapping when the backing file does not exist or its content is not
syntactically valid JSON; content that is valid JSON of the wrong shape is
returned unchanged, not replaced by the empty mapping. -/
theorem load_mappings_fail_open :
    load_mappings FileState.missing = Json.obj [] ∧
    (∀ e, load_mappings (FileState.notJson e) = Json.obj []) ∧
    (∀ j, load_mappings (FileState.jsonVal j) = j) ∧
    asMapping (Json.obj []) = some [] :=
  ⟨rfl, fun _ => rfl, fun _ => rfl, rfl⟩

/-! ### C7: save/load round-trip -/

theorem decodeEntries_encode (m : Mapping) :
    decodeEntries (m.map (fun p => (p.1, match p.2 with
      | some s => Json.str s
      | none => Json.null))) = some m := by
  induction m with
  | nil => rfl
  | cons p rest ih =>
      obtain ⟨k, v⟩ := p
      cases v <;> simp [decodeEntries, ih]

/-- Claim C7: saving a mapping and loading it back yields exactly that
mapping: the loaded Python value is the serialized mapping itself, and
decoding it as a string-to-string-or-null table recovers `m` exactly. -/
theorem load_save_roundtrip (m : Mapping) :
    load_mappings (save_mappings m) = encodeMapping m ∧
    asMapping (load_mappings (save_mappings m)) = some m :=
  ⟨rfl, decodeEntries_encode m⟩

/-! ### C8: the allow-list acceptance rule of _validate_command -/

/-- The acceptance rule exactly as the specification words it: a candidate
is accepted iff it case-insensitively equals an allow-listed entry or begins
with an allow-listed entry followed by a space (case-insensitive comparison
via lowercasing both sides; nothing is said about surrounding whitespace). -/
def specAcceptsCommand (command : String) : Bool :=
  ALLOWED_COMMANDS.any (fun allowed =>
    pyLower command == pyLower allowed
      || pyStartsWith (pyLower command) (pyLower allowed ++ " "))

/-- Counterexample to claim C8 as stated: the command " sync push" (leading
space) is accepted by `_validate_command`, which strips surrounding
whitespace before matching, yet it neither case-insensitively equals any
allow-listed entry nor begins with an entry followed by a space. -/
theorem validate_command_counterexample :
    _validate_command " sync push" = true ∧
    specAcceptsCommand " sync push" = false :=
  ⟨by decide, by decide⟩

theorem list_any_congr {α : Type} {l : List α} {p q : α → Bool}
    (h : ∀ a ∈ l, p a = q a) : l.any p = l.any q := by
  induction l with
  | nil => rfl
  | cons x xs ih =>
      simp only [List.any_cons]
      rw [h x (by simp), ih (fun a ha => h a (by simp [ha]))]

theorem allowed_commands_lowercase :
    ∀ a ∈ ALLOWED_COMMANDS, pyLower a = a := by
  intro a ha
  fin_cases ha <;> decide

/-- Claim C8 as amended: `_validate_command` accepts a command iff, after
stripping surrounding whitespace, it case-insensitively equals an
allow-listed entry or begins with an allow-listed entry followed by a
space; in particular "sync push --dry-run" and "SYNC PUSH" are accepted
while "sync" and "remote delete branch" are rejected. -/
theorem validate_command_characterization :
    _validate_command "sync push --dry-run" = true ∧
    _validate_command "SYNC PUSH" = true ∧
    _validate_command "sync" = false ∧
    _validate_command "remote delete branch" = false ∧
    ∀ command,
      _validate_command command = specAcceptsCommand (pyStrip command) := by
  refine ⟨by decide, by decide, by decide, by decide, ?_⟩
  intro command
  unfold _validate_command specAcceptsCommand
  exact list_any_congr (fun a ha => by
    rw [allowed_commands_lowercase a ha])

/-! ### C5: the guard failure taxonomy -/

/-- A world whose project manifest file is absent. -/
def exWorldNoManifest : World :=
  { exWorldFeature with manifest := FileState.missing }

/-- A world whose manifest parses but has `allowTargetEnv` false. -/
def exWorldMisconfigured : World :=
  { exWorldFeature with
      manifest := FileState.jsonVal
        (Json.obj [("allowTargetEnv", Json.bool false)]) }

/-- Counterexample to claim C5 as stated: the manifest-absent failure and
the override-flag-false failure are raised as the same Python exception
class (`ProjectNotInitializedError`), and the `kbc` tool coerces both to
the same result kind "PROJECT_NOT_INITIALIZED" — two of the three guard
failures are coerced into one caller-visible error kind. -/
theorem guard_error_kinds_counterexample :
    validate_project_initialization FileState.missing
      = Except.error (PyExn.projectNotInitialized msgNotInitialized) ∧
    validate_project_initialization
        (FileState.jsonVal (Json.obj [("allowTargetEnv", Json.bool false)]))
      = Except.error (PyExn.projectNotInitialized msgMisconfigured) ∧
    pyExnClass (PyExn.projectNotInitialized msgNotInitialized)
      = pyExnClass (PyExn.projectNotInitialized msgMisconfigured) ∧
    resultCode (kbcRun exWorldNoManifest "status" []).2
      = some "PROJECT_NOT_INITIALIZED" ∧
    resultCode (kbcRun exWorldMisconfigured "status" []).2
      = some "PROJECT_NOT_INITIALIZED" :=
  ⟨rfl, rfl, rfl, rfl, rfl⟩

theorem isPrefixList_append_of_le (p c e : List Char)
    (hlen : p.length ≤ c.length) :
    isPrefixList p (c ++ e) = isPrefixList p c := by
  induction p generalizing c with
  | nil => cases c <;> rfl
  | cons x xs ih =>
      cases c with
      | nil => simp at hlen
      | cons y ys =>
          simp only [List.cons_append, isPrefixList, List.append_eq]
          rw [ih ys (by simpa using hlen)]

theorem pyStartsWith_append_of_le (c e p : String)
    (hlen : p.data.length ≤ c.data.length) :
    pyStartsWith (c ++ e) p = pyStartsWith c p := by
  unfold pyStartsWith
  rw [String.data_append]
  exact isPrefixList_append_of_le p.data c.data e.data hlen

/-- The constant part of the PROJECT_INVALID message. -/
def msgInvalidStem : String :=
  "PROJECT_INVALID: Failed to parse manifest.json: "

/-- Claim C5 as amended: the three guard failure conditions all raise the
single exception class `ProjectNotInitializedError`; they are
distinguishable only through the message, which starts with a distinct code
per condition — "PROJECT_NOT_INITIALIZED:" when the manifest is absent,
"PROJECT_INVALID:" when it exists but cannot be parsed, and
"PROJECT_MISCONFIGURED:" when it parses but the override-permission flag is
falsy — and each message carries exactly one of the three codes. -/
theorem guard_failure_taxonomy (e : String) (kvs : List (String × Json))
    (hflag : truthy (objGetD kvs "allowTargetEnv" (Json.bool false))
      = false) :
    validate_project_initialization FileState.missing
      = Except.error (PyExn.projectNotInitialized msgNotInitialized) ∧
    validate_project_initialization (FileState.notJson e)
      = Except.error (PyExn.projectNotInitialized (msgInvalidStem ++ e)) ∧
    validate_project_initialization (FileState.jsonVal (Json.obj kvs))
      = Except.error (PyExn.projectNotInitialized msgMisconfigured) ∧
    pyStartsWith msgNotInitialized "PROJECT_NOT_INITIALIZED:" = true ∧
    pyStartsWith msgNotInitialized "PROJECT_INVALID:" = false ∧
    pyStartsWith msgNotInitialized "PROJECT_MISCONFIGURED:" = false ∧
    pyStartsWith (msgInvalidStem ++ e) "PROJECT_INVALID:" = true ∧
    pyStartsWith (msgInvalidStem ++ e) "PROJECT_NOT_INITIALIZED:" = false ∧
    pyStartsWith (msgInvalidStem ++ e) "PROJECT_MISCONFIGURED:" = false ∧
    pyStartsWith msgMisconfigured "PROJECT_MISCONFIGURED:" = true ∧
    pyStartsWith msgMisconfigured "PROJECT_NOT_INITIALIZED:" = false ∧
    pyStartsWith msgMisconfigured "PROJECT_INVALID:" = false := by
  refine ⟨rfl, rfl, ?_, by decide, by decide, by decide, ?_, ?_, ?_,
    by decide, by decide, by decide⟩
  · simp only [validate_project_initialization]
    rw [hflag]
    simp
  · rw [pyStartsWith_append_of_le msgInvalidStem e _ (by decide)]
    decide
  · rw [pyStartsWith_append_of_le msgInvalidStem e _ (by decide)]
    decide
  · rw [pyStartsWith_append_of_le msgInvalidStem e _ (by decide)]
    decide

/-- Witness for C5 (amended): a concrete corrupt-manifest error text and a
concrete flag-false manifest satisfy the hypotheses. -/
theorem guard_failure_taxonomy_witness :
    validate_project_initialization
        (FileState.notJson "Expecting value: line 1 column 1 (char 0)")
      = Except.error (PyExn.projectNotInitialized
          (msgInvalidStem ++ "Expecting value: line 1 column 1 (char 0)")) ∧
    pyStartsWith msgMisconfigured "PROJECT_MISCONFIGURED:" = true :=
  ⟨(guard_failure_taxonomy "Expecting value: line 1 column 1 (char 0)"
      [("allowTargetEnv", Json.bool false)] (by decide)).2.1,
    (guard_failure_taxonomy "Expecting value: line 1 column 1 (char 0)"
      [("allowTargetEnv", Json.bool false)] (by decide)).2.2.2.2.2.2.2.2.2.1⟩

/-! ### C9: what remove/unlink return for absent and null mappings -/

/-- Counterexample to claim C9 as stated: `remove_mapping` returns the same
value (Python `None`) for removing an existing null (production) mapping of
"main" and for removing the nonexistent mapping of "feature/x" — the two
outcomes are not distinguishable from the return value of the store-level
remove. -/
theorem remove_mapping_counterexample :
    has_mapping (FileState.jsonVal (Json.obj [("main", Json.null)])) "main"
      = Except.ok true ∧
    has_mapping (FileState.jsonVal (Json.obj [("main", Json.null)]))
        "feature/x"
      = Except.ok false ∧
    remove_mapping (FileState.jsonVal (Json.obj [("main", Json.null)]))
        "main"
      = Except.ok (Json.null, FileState.jsonVal (Json.obj [])) ∧
    remove_mapping (FileState.jsonVal (Json.obj [("main", Json.null)]))
        "feature/x"
      = Except.ok (Json.null,
          FileState.jsonVal (Json.obj [("main", Json.null)])) :=
  ⟨rfl, rfl, rfl, rfl⟩

/-- Claim C9 as amended: `remove_mapping` returns the removed workspace id,
with `None` both for a removed null mapping and for an absent entry (the
return value alone does not distinguish them); the `unlink_branch` tool
distinguishes absence by checking `has_mapping` first — an absent mapping
yields the distinct non-error "No mapping exists" result and leaves the
mapping file unchanged, while a present mapping (null included) yields the
"removed" result carrying the removed id. -/
theorem unlink_branch_distinguishes (W : World) (b : String)
    (kvs : List (String × Json))
    (hg : W.gitBranch = Except.ok b)
    (hload : load_mappings W.mappingFile = Json.obj kvs) :
    (kvs.any (fun p => p.1 == b) = false →
      unlink_branch W = (W.mappingFile,
        UnlinkRes.noMappingRes b
          ("No mapping exists for git branch '" ++ b ++ "'"))) ∧
    (kvs.any (fun p => p.1 == b) = true →
      unlink_branch W
        = (FileState.jsonVal (Json.obj (objRemove kvs b)),
            UnlinkRes.removedRes b (objGetD kvs b Json.null)
              ("Mapping removed. Keboola branch " ++
                (if truthy (objGetD kvs b Json.null) then
                  pyStrJson (objGetD kvs b Json.null)
                else "production") ++
                " still exists."))) ∧
    (∀ m m' kid, UnlinkRes.noMappingRes b m ≠ UnlinkRes.removedRes b kid m')
    := by
  refine ⟨?_, ?_, ?_⟩
  · intro hmem
    unfold unlink_branch
    rw [hg]
    simp only [has_mapping, hload, pyIn, hmem]
  · intro hmem
    unfold unlink_branch
    rw [hg]
    simp only [has_mapping, hload, pyIn, hmem, remove_mapping]
  · intro m m' kid
    simp

/-- A world on the non-default branch "feature/y" whose mapping file holds
only a null entry for "main". -/
def exWorldUnlinkAbsent : World :=
  { exWorldFeature with
      gitBranch := Except.ok "feature/y"
      mappingFile := FileState.jsonVal (Json.obj [("main", Json.null)]) }

/-- The same world on branch "main" (whose mapping is null). -/
def exWorldUnlinkNull : World :=
  { exWorldUnlinkAbsent with gitBranch := Except.ok "main" }

/-- Witness for C9 (amended): unlinking the unmapped "feature/y" returns the
"No mapping exists" result with the file unchanged; unlinking "main", whose
stored mapping is null, returns the removed-result — two different
constructors, distinguishable even though both ids are null. -/
theorem unlink_branch_distinguishes_witness :
    unlink_branch exWorldUnlinkAbsent
      = (exWorldUnlinkAbsent.mappingFile,
          UnlinkRes.noMappingRes "feature/y"
            "No mapping exists for git branch 'feature/y'") ∧
    unlink_branch exWorldUnlinkNull
      = (FileState.jsonVal (Json.obj []),
          UnlinkRes.removedRes "main" Json.null
            "Mapping removed. Keboola branch production still exists.") ∧
    UnlinkRes.noMappingRes "main" "No mapping exists for git branch 'main'"
      ≠ UnlinkRes.removedRes "main" Json.null
          "Mapping removed. Keboola branch production still exists." := by
  refine ⟨?_, ?_, ?_⟩
  · exact (unlink_branch_distinguishes exWorldUnlinkAbsent "feature/y"
      [("main", Json.null)] rfl rfl).1 (by decide)
  · exact (unlink_branch_distinguishes exWorldUnlinkNull "main"
      [("main", Json.null)] rfl rfl).2.1 (by decide)
  · exact (unlink_branch_distinguishes exWorldUnlinkNull "main"
      [("main", Json.null)] rfl rfl).2.2
      "No mapping exists for git branch 'main'"
      "Mapping removed. Keboola branch production still exists." Json.null

/-! ### C10: link_branch on a default branch -/

theorem objGetD_eq_envLookup (kvs : List (String × Json)) (k : String)
    (d : Json) : objGetD kvs k d = (envLookup kvs k).getD d := by
  induction kvs with
  | nil => rfl
  | cons p rest ih =>
      by_cases hp : p.1 == k
      · simp [objGetD, envLookup, hp]
      · simp [objGetD, envLookup, hp, ih]

theorem objGetD_objSet_self (kvs : List (String × Json)) (k : String)
    (v d : Json) : objGetD (objSet kvs k v) k d = v := by
  have hset : objSet kvs k v = envSet kvs k v := rfl
  rw [hset, objGetD_eq_envLookup, envLookup_envSet_self]
  rfl

/-- Claim C10: when the current VCS branch is a default branch and the
guard passes, `link_branch` writes a null mapping entry for that branch —
overwriting any existing entry, non-null included, because the default check
runs before the existing-mapping check — and performs no remote workspace
lookup (`find_keboola_branch_by_name`) and no remote creation. -/
theorem link_branch_default_overwrites (W : World) (name : Option String)
    (b : String) (kvs : List (String × Json))
    (hg : W.gitBranch = Except.ok b)
    (hv : validate_project_initialization W.manifest = Except.ok ())
    (hdef : is_default_branch W.defaultBranch b = true)
    (hload : load_mappings W.mappingFile = Json.obj kvs) :
    link_branch W name =
      ([Event.gitQuery, Event.manifestRead, Event.mappingRead,
          Event.mappingWrite],
        FileState.jsonVal (Json.obj (objSet kvs b Json.null)),
        LinkRes.linkedRes b Json.null "production" false
          ("Default branch '" ++ b ++
            "' mapped to production (no KBC_BRANCH_ID override)")) ∧
    Event.remoteFind ∉ (link_branch W name).1 ∧
    Event.remoteCreate ∉ (link_branch W name).1 ∧
    objGetD (objSet kvs b Json.null) b (Json.str "sentinel") = Json.null
    := by
  have hmain : link_branch W name =
      ([Event.gitQuery, Event.manifestRead, Event.mappingRead,
          Event.mappingWrite],
        FileState.jsonVal (Json.obj (objSet kvs b Json.null)),
        LinkRes.linkedRes b Json.null "production" false
          ("Default branch '" ++ b ++
            "' mapped to production (no KBC_BRANCH_ID override)")) := by
    unfold link_branch
    rw [hg]
    simp only [hv, hdef, if_true, add_mapping, hload]
  refine ⟨hmain, ?_, ?_, objGetD_objSet_self kvs b Json.null _⟩
  · rw [hmain]
    simp
  · rw [hmain]
    simp

/-- A world on the default branch "main" whose mapping file already maps
"main" to the non-null id "555". -/
def exWorldLinkDefault : World :=
  { exWorldFeature with
      gitBranch := Except.ok "main"
      mappingFile := FileState.jsonVal (Json.obj [("main", Json.str "555")]) }

/-- Witness for C10: linking while on "main" with an existing non-null entry
overwrites it with null, reports production linkage, and the trace contains
no remote lookup or creation. -/
theorem link_branch_default_overwrites_witness :
    link_branch exWorldLinkDefault none =
      ([Event.gitQuery, Event.manifestRead, Event.mappingRead,
          Event.mappingWrite],
        FileState.jsonVal (Json.obj [("main", Json.null)]),
        LinkRes.linkedRes "main" Json.null "production" false
          "Default branch 'main' mapped to production (no KBC_BRANCH_ID override)")
      := by
  have h := (link_branch_default_overwrites exWorldLinkDefault none "main"
    [("main", Json.str "555")] rfl rfl (by decide) rfl).1
  exact h

/-! ### C4: ordering and gating in the kbc tool -/

theorem spawn_not_in_get_kid_trace (d : String) (fs : FileState)
    (b : String) :
    Event.spawn ∉ (get_keboola_branch_id_t d fs b).1 := by
  unfold get_keboola_branch_id_t
  by_cases hdef : is_default_branch d b
  · simp [hdef]
  · simp only [hdef, if_false]
    cases hm : has_mapping fs b with
    | error e => simp
    | ok tv =>
        cases tv
        · cases hk : jsonKeys (load_mappings fs) <;> simp
        · cases hg : get_mapping fs b <;> simp

theorem spawn_not_in_branch_context_trace (W : World) :
    Event.spawn ∉ (branch_context_t W).1 := by
  unfold branch_context_t
  cases hv : validate_project_initialization W.manifest with
  | error e => simp
  | ok u =>
    cases hg : W.gitBranch with
    | error m => simp
    | ok gb =>
      rcases hr : get_keboola_branch_id_t W.defaultBranch W.mappingFile gb
        with ⟨evs, res⟩
      have hs := spawn_not_in_get_kid_trace W.defaultBranch W.mappingFile gb
      rw [hr] at hs
      simp only at hs
      cases res <;> simp [hr, hs]

theorem validate_error_shape (ms : FileState) (e : PyExn)
    (h : validate_project_initialization ms = Except.error e) :
    (∃ m, e = PyExn.projectNotInitialized m) ∨ e = PyExn.wrongShape := by
  cases ms with
  | missing =>
      simp only [validate_project_initialization, Except.error.injEq] at h
      exact Or.inl ⟨_, h.symm⟩
  | notJson s =>
      simp only [validate_project_initialization, Except.error.injEq] at h
      exact Or.inl ⟨_, h.symm⟩
  | jsonVal j =>
      cases j with
      | obj kvs =>
          simp only [validate_project_initialization] at h
          split at h
          · cases h
          · simp only [Except.error.injEq] at h
            exact Or.inl ⟨_, h.symm⟩
      | null =>
          simp only [validate_project_initialization,
            Except.error.injEq] at h
          exact Or.inr h.symm
      | bool b =>
          simp only [validate_project_initialization,
            Except.error.injEq] at h
          exact Or.inr h.symm
      | num n =>
          simp only [validate_project_initialization,
            Except.error.injEq] at h
          exact Or.inr h.symm
      | str s =>
          simp only [validate_project_initialization,
            Except.error.injEq] at h
          exact Or.inr h.symm
      | arr xs =>
          simp only [validate_project_initialization,
            Except.error.injEq] at h
          exact Or.inr h.symm

theorem get_kid_branchRes_inv (d : String) (fs : FileState) (b b' : String)
    (avail : List String)
    (h : (get_keboola_branch_id_t d fs b).2
      = Except.error (PyExn.branchResolution b' avail)) :
    b' = b ∧ jsonKeys (load_mappings fs) = Except.ok avail := by
  unfold get_keboola_branch_id_t at h
  by_cases hdef : is_default_branch d b
  · rw [if_pos hdef] at h
    simp at h
  · rw [if_neg hdef] at h
    cases hl : load_mappings fs with
    | obj kvs =>
        simp only [has_mapping, hl, pyIn] at h
        by_cases hmem : kvs.any (fun p => p.1 == b)
        · simp only [hmem, get_mapping, hl] at h
          simp at h
        · simp only [Bool.not_eq_true] at hmem
          simp only [hmem, jsonKeys] at h
          simp only [Except.error.injEq, PyExn.branchResolution.injEq] at h
          exact ⟨h.1.symm, by rw [jsonKeys, h.2]⟩
    | arr xs =>
        simp only [has_mapping, hl, pyIn] at h
        by_cases hmem : xs.any (fun x => jsonEqStr x b)
        · simp only [hmem, get_mapping, hl] at h
          simp at h
        · simp only [Bool.not_eq_true] at hmem
          simp only [hmem, jsonKeys] at h
          simp at h
    | str s =>
        simp only [has_mapping, hl, pyIn] at h
        by_cases hmem : strContainsSub s b
        · simp only [hmem, get_mapping, hl] at h
          simp at h
        · simp only [Bool.not_eq_true] at hmem
          simp only [hmem, jsonKeys] at h
          simp at h
    | null => simp [has_mapping, hl, pyIn] at h
    | bool v => simp [has_mapping, hl, pyIn] at h
    | num n => simp [has_mapping, hl, pyIn] at h

theorem branch_context_branchRes_inv (W : World) (b : String)
    (avail : List String)
    (h : branch_context W = Except.error (PyExn.branchResolution b avail)) :
    W.gitBranch = Except.ok b ∧
    jsonKeys (load_mappings W.mappingFile) = Except.ok avail := by
  unfold branch_context branch_context_t at h
  cases hv : validate_project_initialization W.manifest with
  | error e =>
      simp only [hv] at h
      simp only [Except.error.injEq] at h
      rcases validate_error_shape W.manifest e hv with ⟨m, hm⟩ | hm <;>
        rw [hm] at h <;> cases h
  | ok u =>
    cases hg : W.gitBranch with
    | error m => simp [hv, hg] at h
    | ok gb =>
      rcases hr : get_keboola_branch_id_t W.defaultBranch W.mappingFile gb
        with ⟨evs, res⟩
      cases res with
      | ok kid => simp [hv, hg, hr] at h
      | error e =>
          simp only [hv, hg, hr, Except.error.injEq] at h
          have h2 : (get_keboola_branch_id_t W.defaultBranch W.mappingFile
              gb).2 = Except.error (PyExn.branchResolution b avail) := by
            rw [hr, h]
          obtain ⟨hb, hkeys⟩ := get_kid_branchRes_inv W.defaultBranch
            W.mappingFile gb b avail h2
          exact ⟨by rw [hb], hkeys⟩

/-- Claim C4: the kbc tool validates the command first — a rejected command
returns the INVALID_COMMAND result with no side effect at all (no guard
check, no VCS query, no mapping read); any branch_context failure
short-circuits before a subprocess is spawned and is surfaced with its
original kind (a ProjectNotInitializedError maps to the
PROJECT_NOT_INITIALIZED result with its message, a BranchResolutionError
maps to the NO_MAPPING result carrying the current mapping-key list); and a
subprocess is spawned only when the command is allow-listed and a branch
context was successfully resolved. -/
theorem kbc_gating (W : World) (command : String)
    (args : List (String × ArgVal)) :
    (_validate_command command = false →
      kbcRun W command args
        = ([], KbcResult.invalidCommand (invalidCommandMessage command))) ∧
    (∀ e, branch_context W = Except.error e →
      Event.spawn ∉ (kbcRun W command args).1) ∧
    (∀ m, _validate_command command = true →
      branch_context W = Except.error (PyExn.projectNotInitialized m) →
      (kbcRun W command args).2 = KbcResult.projectNotInitializedRes m) ∧
    (∀ b avail, _validate_command command = true →
      branch_context W = Except.error (PyExn.branchResolution b avail) →
      (kbcRun W command args).2
        = KbcResult.noMapping (noMappingMessage b avail) b avail) ∧
    (Event.spawn ∈ (kbcRun W command args).1 →
      _validate_command command = true ∧
      ∃ ctx, branch_context W = Except.ok ctx) := by
  rcases hbc : branch_context_t W with ⟨tr, res⟩
  have hbc2 : branch_context W = res := by
    rw [branch_context, hbc]
  have htr : Event.spawn ∉ tr := by
    have := spawn_not_in_branch_context_trace W
    rw [hbc] at this
    exact this
  refine ⟨?_, ?_, ?_, ?_, ?_⟩
  · intro hval
    simp [kbcRun, hval]
  · intro e he
    rw [hbc2] at he
    subst he
    by_cases hval : _validate_command command = false
    · simp [kbcRun, hval]
    · simp only [kbcRun, hval, if_false, hbc]
      cases e with
      | projectNotInitialized m => simpa using htr
      | branchResolution b avail =>
          cases hk : jsonKeys (load_mappings W.mappingFile) with
          | error e' => simp [htr]
          | ok avail2 => simp [htr]
      | gitError m => simpa using htr
      | wrongShape => simpa using htr
  · intro m hval he
    rw [hbc2] at he
    subst he
    simp [kbcRun, hval, hbc]
  · intro b avail hval he
    have hinv := branch_context_branchRes_inv W b avail he
    rw [hbc2] at he
    subst he
    simp only [kbcRun, hval, Bool.true_eq_false, if_false, hbc]
    rw [hinv.2, hinv.1]
  · intro hsp
    by_cases hval : _validate_command command = false
    · simp [kbcRun, hval] at hsp
    · cases res with
      | ok ctx =>
          refine ⟨by simpa using hval, ctx, hbc2⟩
      | error e =>
          exfalso
          simp only [kbcRun, hval, if_false, hbc] at hsp
          cases e with
          | projectNotInitialized m => exact htr hsp
          | branchResolution b avail =>
              cases hk : jsonKeys (load_mappings W.mappingFile) with
              | error e' =>
                  rw [hk] at hsp
                  simp [htr] at hsp
              | ok avail2 =>
                  rw [hk] at hsp
                  simp [htr] at hsp
          | gitError m => exact htr hsp
          | wrongShape => exact htr hsp

/-- A world whose current branch "feature/z" has no mapping. -/
def exWorldUnmapped : World :=
  { exWorldFeature with gitBranch := Except.ok "feature/z" }

/-- Witness for C4: a non-allow-listed command returns INVALID_COMMAND with
an empty trace; with a missing manifest, "status" surfaces
PROJECT_NOT_INITIALIZED and spawns nothing; with an unmapped branch,
"status" surfaces NO_MAPPING with the mapping-key list; and in a fully
resolved world the spawn event does occur, so the spawn-implies-resolution
hypothesis is satisfiable. -/
theorem kbc_gating_witness :
    kbcRun exWorldFeature "git push --force" []
      = ([], KbcResult.invalidCommand
          (invalidCommandMessage "git push --force")) ∧
    Event.spawn ∉ (kbcRun exWorldNoManifest "status" []).1 ∧
    (kbcRun exWorldNoManifest "status" []).2
      = KbcResult.projectNotInitializedRes msgNotInitialized ∧
    (kbcRun exWorldUnmapped "status" []).2
      = KbcResult.noMapping
          (noMappingMessage "feature/z" ["main", "feature/x"])
          "feature/z" ["main", "feature/x"] ∧
    (_validate_command "status" = true ∧
      ∃ ctx, branch_context exWorldFeature = Except.ok ctx) := by
  refine ⟨?_, ?_, ?_, ?_, ?_⟩
  · exact (kbc_gating exWorldFeature "git push --force" []).1 (by decide)
  · exact (kbc_gating exWorldNoManifest "status" []).2.1
      (PyExn.projectNotInitialized msgNotInitialized) rfl
  · exact (kbc_gating exWorldNoManifest "status" []).2.2.1
      msgNotInitialized (by decide) rfl
  · exact (kbc_gating exWorldUnmapped "status" []).2.2.2.1
      "feature/z" ["main", "feature/x"] (by decide) rfl
  · exact (kbc_gating exWorldFeature "status" []).2.2.2.2 (by decide)

end KbcMcp
